import Mathlib

/-!
Shallow embedding of the LilDBsh interactive database shell client
(src/main.rs) in Lean 4, together with theorems settling the claims of
the specification against the code.

The embedding models:
  - the raw-terminal line reader (function read_input, main.rs lines 30-99);
  - command-line argument handling (function check_args, lines 101-132);
  - the address-resolution step and the connection retry loop of
    connect_to_db (lines 134-195), including the tonic endpoint builder
    settings (lines 169-174);
  - the connect handshake outcome handling (lines 199-214);
  - the interactive shell loop handle_shell (lines 217-284), as a
    deterministic trace semantics: each loop iteration spawns a task that
    finishes the blocking line read and hands its results back over
    channels before handle_shell proceeds, so one iteration is a strict
    sequence (read line, enqueue request, optional disconnect,
    run_command stream, drain of the inbound stream) and the next
    iteration starts only afterwards.

Machine input (key events), server answers (disconnect responses, stream
outcomes) are supplied as explicit script data, making every function
executable and every run a finite trace.
-/

namespace LilDBsh

/-- Key codes of terminal key events (the crossterm KeyCode variants the
program matches on; every other variant behaves like other). -/
inductive KeyCode
  | enter
  | backspace
  | up
  | down
  | char (c : Char)
  | other
deriving DecidableEq

/-- Modifier state of a key event (crossterm KeyModifiers as matched by the
program: exactly ALT, exactly CONTROL, or anything else). -/
inductive Mods
  | nomod
  | alt
  | control
  | shift
deriving DecidableEq

/-- One keyboard event (crossterm Event::Key). press is true for
KeyEventKind::Press; the program ignores non-press events. -/
structure KeyEvent where
  code : KeyCode
  mods : Mods
  press : Bool
deriving DecidableEq

/-- Loop body of read_input (main.rs lines 35-96): processes terminal key
events one at a time, mutating the input buffer and the history cursor
chLen. Returns some (line, interrupted) when the loop returns: Enter on a
non-empty buffer completes the line (interrupted = false), Ctrl-C returns
the current buffer with interrupted = true. none means the event list ran
out while the real program would still be blocked reading. -/
def readInputGo (history : List String) : List KeyEvent → String → Nat → Option (String × Bool)
  | [], _, _ => none
  | e :: rest, input, chLen =>
    if e.press then
      match e.code, e.mods with
      | KeyCode.enter, Mods.alt => readInputGo history rest (input.push '\n') chLen
      | KeyCode.enter, _ =>
        if input ≠ "" then some (input, false)
        else readInputGo history rest input chLen
      | KeyCode.backspace, _ =>
        if input ≠ "" then readInputGo history rest (input.dropRight 1) chLen
        else readInputGo history rest input chLen
      | KeyCode.char c, Mods.control =>
        if c = 'c' then some (input, true)
        else readInputGo history rest (input.push c) chLen
      | KeyCode.char c, _ => readInputGo history rest (input.push c) chLen
      | KeyCode.up, _ =>
        if 0 < chLen then
          readInputGo history rest (history.getD (chLen - 1) "") (chLen - 1)
        else readInputGo history rest input chLen
      | KeyCode.down, _ =>
        if chLen < history.length then
          if chLen + 1 < history.length then
            readInputGo history rest (history.getD (chLen + 1) "") (chLen + 1)
          else readInputGo history rest "" (chLen + 1)
        else readInputGo history rest input chLen
      | _, _ => readInputGo history rest input chLen
    else readInputGo history rest input chLen

/-- read_input (main.rs lines 30-99): starts with an empty buffer and the
history cursor at command_history.len(). -/
def read_input (history : List String) (keys : List KeyEvent) : Option (String × Bool) :=
  readInputGo history keys "" history.length

/-- A press of a plain character key. -/
def pressChar (c : Char) : KeyEvent :=
  { code := KeyCode.char c, mods := Mods.nomod, press := true }

/-- A press of the Enter key with no modifier. -/
def pressEnter : KeyEvent :=
  { code := KeyCode.enter, mods := Mods.nomod, press := true }

/-- A press of Ctrl-C (user interrupt). -/
def pressCtrlC : KeyEvent :=
  { code := KeyCode.char 'c', mods := Mods.control, press := true }

/-- The key events that type the characters of s and press Enter. -/
def typeKeys (s : String) : List KeyEvent :=
  s.data.map pressChar ++ [pressEnter]

/-- Result of check_args: either the process exits (help or version text
printed, exit code 0) or execution continues with the parsed address. -/
inductive CheckArgsResult
  | exited (code : Nat)
  | address (a : String)
deriving DecidableEq

/-- Loop of check_args (main.rs lines 106-129): scans every argument; help
and version exit immediately; an address flag takes the following argument
as the new address when one exists. cmdArgs is the full argument vector
(kept for positional lookup), the first list argument is the remaining
suffix being scanned, i its starting index. -/
def checkArgsGo (cmdArgs : List String) : List String → Nat → String → CheckArgsResult
  | [], _, address => CheckArgsResult.address address
  | arg :: rest, i, address =>
    if arg = "--help" ∨ arg = "-h" then CheckArgsResult.exited 0
    else if arg = "--version" ∨ arg = "-v" then CheckArgsResult.exited 0
    else if arg = "--address" ∨ arg = "-a" then
      if i + 1 < cmdArgs.length then
        checkArgsGo cmdArgs rest (i + 1) (cmdArgs.getD (i + 1) address)
      else
        checkArgsGo cmdArgs rest (i + 1) address
    else checkArgsGo cmdArgs rest (i + 1) address

/-- check_args (main.rs lines 101-132): the address starts as the marker
string "null" and is overwritten by address flags. -/
def check_args (cmdArgs : List String) : CheckArgsResult :=
  checkArgsGo cmdArgs cmdArgs 0 "null"

/-- TLS settings a tonic endpoint could carry (CA certificate text and a
domain override). The program never constructs one. -/
structure TlsConfig where
  caCertificatePem : Option String
  domain : Option String
deriving DecidableEq

/-- The tonic endpoint configuration assembled by connect_to_db: target
uri, keep-alive settings, and optional TLS settings. -/
structure Endpoint where
  uri : String
  keepAliveWhileIdle : Bool
  keepAliveTimeoutSecs : Option Nat
  tls : Option TlsConfig
deriving DecidableEq

/-- Channel::from_shared: a fresh endpoint for the uri with tonic's
defaults (no keep-alive while idle, no keep-alive timeout, no TLS). -/
def Endpoint.fromShared (uri : String) : Endpoint :=
  { uri := uri, keepAliveWhileIdle := false, keepAliveTimeoutSecs := none, tls := none }

/-- Endpoint builder keep_alive_while_idle. -/
def Endpoint.keep_alive_while_idle (e : Endpoint) (enabled : Bool) : Endpoint :=
  { e with keepAliveWhileIdle := enabled }

/-- Endpoint builder keep_alive_timeout (duration in whole seconds). -/
def Endpoint.keep_alive_timeout (e : Endpoint) (secs : Nat) : Endpoint :=
  { e with keepAliveTimeoutSecs := some secs }

/-- The endpoint configuration built on every connection attempt
(main.rs lines 169-174): from_shared, keep_alive_while_idle(true),
keep_alive_timeout(30 seconds), nothing else. -/
def channelEndpoint (input : String) : Endpoint :=
  ((Endpoint.fromShared input).keep_alive_while_idle true).keep_alive_timeout 30

/-- Address resolution at the top of connect_to_db (main.rs lines
138-154): when the configured address is the marker "null" the user is
prompted and the prompted line is used; otherwise the configured address
is used. The returned Bool records whether the interactive prompt ran. -/
def resolve_address (address : String) (prompted : String) : String × Bool :=
  if address = "null" then (prompted, true) else (address, false)

/-- Observable events of the connection retry loop: an attempt numbered k
(the Attempt k/3 log line) and a wait of a given number of seconds between
attempts. connect_to_db contains no wait, so no sleep event is ever
emitted; the constructor exists so the absence of waiting is expressible. -/
inductive RetryEvent
  | attempt (k : Nat)
  | sleep (secs : Nat)
deriving DecidableEq

/-- Outcome of the retry loop: a transport after a number of attempts, or
process::exit with the given code. -/
inductive RetryOutcome
  | connected (attempts : Nat)
  | exitProcess (code : Nat)
deriving DecidableEq

/-- Whether a retry event is a wait between attempts. -/
def isSleepEvent : RetryEvent → Bool
  | RetryEvent.sleep _ => true
  | _ => false

/-- The retry loop of connect_to_db (main.rs lines 156-195), driven by the
list of attempt outcomes (true = the transport connect succeeds).
max_retries is 3; on the failure that reaches attempts >= 3 the process
exits with code 0 (the literal argument of the process::exit call at line
190). No sleep is performed anywhere. none means the outcome list ran out
before the loop finished (cannot happen with 3 or more outcomes). -/
def connectRetryGo : List Bool → Nat → List RetryEvent × Option RetryOutcome
  | [], _ => ([], none)
  | ok :: rest, attempts =>
    let a := attempts + 1
    if ok then ([RetryEvent.attempt a], some (RetryOutcome.connected a))
    else if 3 ≤ a then ([RetryEvent.attempt a], some (RetryOutcome.exitProcess 0))
    else
      let r := connectRetryGo rest a
      (RetryEvent.attempt a :: r.1, r.2)

/-- The retry loop started with attempts = 0. -/
def connect_to_db_retry (outcomes : List Bool) : List RetryEvent × Option RetryOutcome :=
  connectRetryGo outcomes 0

/-- The connect RPC response (proto ConnectResponse): success flag and a
human-readable message. -/
structure ConnectResponse where
  success : Bool
  message : String
deriving DecidableEq

/-- What connect_to_db does with the handshake response: proceed to the
shell (printing the listed strings) or exit the process with the given
code after printing the listed strings. -/
inductive HandshakeStep
  | proceed (printed : List String)
  | exitProcess (code : Nat) (printed : List String)
deriving DecidableEq

/-- Handshake outcome handling in connect_to_db (main.rs lines 206-212):
success prints the server message and proceeds; failure logs the fixed
text "Failed to connect to" and calls process::exit(1). The server
message is not printed on failure. -/
def connect_handshake (response : ConnectResponse) : HandshakeStep :=
  if response.success then HandshakeStep.proceed [response.message ++ "\n\r"]
  else HandshakeStep.exitProcess 1 ["Failed to connect to\n\r"]

/-- The message sent on the command channel (proto CommandRequest). -/
structure CommandRequest where
  command : String
deriving DecidableEq

/-- The disconnect RPC response (proto DisconnectResponse). -/
structure DisconnectResponse where
  success : Bool
  message : String
deriving DecidableEq

/-- Outcome of a disconnect_from_db call: a response, or a transport-level
error, which the question-mark operator propagates out of handle_shell. -/
inductive DiscOutcome
  | resp (r : DisconnectResponse)
  | rpcErr
deriving DecidableEq

/-- Outcome of a run_command call: refused means the RPC itself returned
Err (logged, loop continues); stream outputs midErr means the RPC
succeeded and the inbound stream yields the listed outputs, after which it
either ends cleanly (midErr = false) or fails (midErr = true), in which
case the question-mark operator aborts handle_shell. -/
inductive RunOutcome
  | refused
  | stream (outputs : List String) (midErr : Bool)
deriving DecidableEq

/-- The scripted external world of one handle_shell loop iteration: the
key events fed to read_input, the disconnect outcome (consulted only when
the iteration requests exit), and the run_command outcome (consulted only
when the iteration reaches run_command). -/
structure IterScript where
  keys : List KeyEvent
  disc : DiscOutcome
  run : RunOutcome
deriving DecidableEq

/-- Observable events of a handle_shell run, in order. lineRead is the
completion of read_input for one typed line (with the computed exit
flag); enqueue is the tx.send of the CommandRequest into the mpsc channel
feeding the stream; disconnectCall is the disconnect_from_db RPC;
printedInfo is the logged disconnect message; runCommandCall is the
opening of a run_command stream together with every request transmitted
on it; runRefused is the logged failure of the run_command RPC; output is
one inbound message printed. -/
inductive ShellEvent
  | lineRead (line : String) (exitFlag : Bool)
  | enqueue (req : CommandRequest)
  | disconnectCall
  | printedInfo (s : String)
  | runCommandCall (reqs : List CommandRequest)
  | runRefused
  | output (s : String)
deriving DecidableEq

/-- How a handle_shell run ends: brokeClean is the break after a
successful disconnect (handle_shell returns Ok); errored is a propagated
error (disconnect RPC failure or mid-stream failure); outOfScript means
the script ended while the loop would continue. -/
inductive ShellResult
  | brokeClean
  | errored
  | outOfScript
deriving DecidableEq

/-- The run_command phase of one iteration: the stream is opened with
exactly the one request of this iteration sitting in the channel; Ok
drains every inbound message; a mid-stream error aborts handle_shell; a
refused RPC is logged and the loop continues with cont. -/
def runPhase (run : RunOutcome) (req : CommandRequest)
    (cont : List ShellEvent × ShellResult) : List ShellEvent × ShellResult :=
  match run with
  | RunOutcome.refused => (ShellEvent.runRefused :: cont.1, cont.2)
  | RunOutcome.stream outputs midErr =>
    if midErr then
      (ShellEvent.runCommandCall [req] :: outputs.map ShellEvent.output, ShellResult.errored)
    else
      (ShellEvent.runCommandCall [req] :: (outputs.map ShellEvent.output ++ cont.1), cont.2)

/-- The handle_shell loop (main.rs lines 222-281) as a trace semantics.
Each iteration: read_input completes with (command, interrupted); the exit
flag is interrupted or command == "exit" (no trimming); the CommandRequest
is sent into the channel unconditionally; when the exit flag is set,
disconnect_from_db runs — a transport error aborts, a success response
breaks out of the loop, a failure response falls through; afterwards the
command is pushed onto the history and run_command opens a stream on the
channel holding this iteration's single request, whose inbound messages
are fully drained before the loop begins the next iteration. -/
def handle_shell_go : List IterScript → List String → List ShellEvent × ShellResult
  | [], _ => ([], ShellResult.outOfScript)
  | s :: rest, history =>
    match read_input history s.keys with
    | none => ([], ShellResult.outOfScript)
    | some (command, interrupted) =>
      let exitFlag := interrupted || (command == "exit")
      let req : CommandRequest := { command := command }
      let pre := [ShellEvent.lineRead command exitFlag, ShellEvent.enqueue req]
      if exitFlag then
        match s.disc with
        | DiscOutcome.rpcErr => (pre ++ [ShellEvent.disconnectCall], ShellResult.errored)
        | DiscOutcome.resp r =>
          if r.success then
            (pre ++ [ShellEvent.disconnectCall, ShellEvent.printedInfo r.message],
              ShellResult.brokeClean)
          else
            let rp := runPhase s.run req (handle_shell_go rest (history ++ [command]))
            (pre ++ ShellEvent.disconnectCall :: rp.1, rp.2)
      else
        let rp := runPhase s.run req (handle_shell_go rest (history ++ [command]))
        (pre ++ rp.1, rp.2)

/-- handle_shell as called from main: empty initial command history. -/
def handle_shell (scripts : List IterScript) : List ShellEvent × ShellResult :=
  handle_shell_go scripts []

/-- Whether a shell event is the disconnect RPC. -/
def isDisconnectCall : ShellEvent → Bool
  | ShellEvent.disconnectCall => true
  | _ => false

/-- Whether a shell event is a completed line read whose exit flag is set
(an exit request: sentinel line or Ctrl-C interrupt). -/
def isExitLineRead : ShellEvent → Bool
  | ShellEvent.lineRead _ f => f
  | _ => false

/-- Whether a shell event is the opening of a run_command stream. -/
def isRunCommandCall : ShellEvent → Bool
  | ShellEvent.runCommandCall _ => true
  | _ => false

/-- Holds of an event unless it is a run_command stream carrying other
than exactly one request. -/
def singleCommandStream : ShellEvent → Bool
  | ShellEvent.runCommandCall reqs => reqs.length == 1
  | _ => true

/-- Holds of an event unless it is a run_command stream transmitting a
request whose text is exactly "exit". -/
def noExitTransmitted : ShellEvent → Bool
  | ShellEvent.runCommandCall reqs => reqs.all (fun r => !(r.command == "exit"))
  | _ => true

/-- Whether an iteration script's disconnect outcome is anything other
than a response with success = false (the one outcome that makes the exit
path fall through into run_command). -/
def discNotRefused (s : IterScript) : Bool :=
  match s.disc with
  | DiscOutcome.resp r => r.success
  | DiscOutcome.rpcErr => true

/-- Modelled from the spec: trimming surrounding whitespace from a line,
used to state the claims that speak of a line "after trimming". -/
def specTrim (s : String) : String :=
  { data := ((s.data.dropWhile Char.isWhitespace).reverse.dropWhile Char.isWhitespace).reverse }

/-- Modelled from the spec: whether an invocation supplies a CA
certificate path through the cert option the specification describes
(long or short form). The program itself parses no such option. -/
def certSupplied (argv : List String) : Bool :=
  argv.contains "--cert" || argv.contains "-c"

/-- Modelled from the spec: whether an address scheme indicates an
encrypted transport (an https scheme). -/
def schemeIndicatesEncryption (address : String) : Bool :=
  List.isPrefixOf "https://".data address.data

/-- Modelled from the spec: the claim that the transport is encrypted if
and only if the scheme indicates encryption or a certificate path is
supplied, stated for an arbitrary reading encrypted of the built endpoint
configuration. -/
def encryptionClaim (encrypted : Endpoint → Bool) : Prop :=
  ∀ (argv : List String) (a : String),
    check_args argv = CheckArgsResult.address a →
    encrypted (channelEndpoint a) = (schemeIndicatesEncryption a || certSupplied argv)

/-- Helper: a predicate that is false on every output event counts zero
occurrences among mapped output events. -/
theorem countP_output_map (p : ShellEvent → Bool) (h : ∀ s, p (ShellEvent.output s) = false)
    (outs : List String) : (outs.map ShellEvent.output).countP p = 0 := by
  induction outs with
  | nil => rfl
  | cons a t ih => simp [List.countP_cons, h a, ih]

/-- Helper: a predicate that holds on every output event holds over any
list of mapped output events. -/
theorem all_output_map (p : ShellEvent → Bool) (h : ∀ s, p (ShellEvent.output s) = true)
    (outs : List String) : (outs.map ShellEvent.output).all p = true := by
  simp only [List.all_eq_true, List.mem_map]
  rintro x ⟨s, _, rfl⟩
  exact h s

/-- Helper: inbound output events are not run_command streams, so they
satisfy singleCommandStream. -/
theorem all_map_output_single (outs : List String) :
    (outs.map ShellEvent.output).all singleCommandStream = true :=
  all_output_map _ (fun _ => rfl) outs

/-- Helper: inbound output events transmit nothing, so they satisfy
noExitTransmitted. -/
theorem all_map_output_noExit (outs : List String) :
    (outs.map ShellEvent.output).all noExitTransmitted = true :=
  all_output_map _ (fun _ => rfl) outs

/-- Helper: inbound output events contain no disconnect call. -/
theorem countP_map_output_disc (outs : List String) :
    (outs.map ShellEvent.output).countP isDisconnectCall = 0 :=
  countP_output_map _ (fun _ => rfl) outs

/-- Helper: inbound output events contain no completed line read. -/
theorem countP_map_output_exitLine (outs : List String) :
    (outs.map ShellEvent.output).countP isExitLineRead = 0 :=
  countP_output_map _ (fun _ => rfl) outs

/-- Helper: composed form of countP_map_output_disc. -/
theorem countP_comp_output_disc (outs : List String) :
    outs.countP (isDisconnectCall ∘ ShellEvent.output) = 0 := by
  induction outs with
  | nil => rfl
  | cons a t ih => simp [List.countP_cons, ih, isDisconnectCall, Function.comp]

/-- Helper: composed form of countP_map_output_exitLine. -/
theorem countP_comp_output_exitLine (outs : List String) :
    outs.countP (isExitLineRead ∘ ShellEvent.output) = 0 := by
  induction outs with
  | nil => rfl
  | cons a t ih => simp [List.countP_cons, ih, isExitLineRead, Function.comp]

/-- C9: for every connection attempt, the endpoint is configured with
keep-alive probes while idle and a keep-alive timeout of exactly 30
seconds, and it carries no TLS settings, so the keep-alive configuration
is the same whether or not TLS would be enabled. -/
theorem c9_keepalive_configured (address : String) :
    (channelEndpoint address).keepAliveWhileIdle = true ∧
    (channelEndpoint address).keepAliveTimeoutSecs = some 30 ∧
    (channelEndpoint address).tls = none :=
  ⟨rfl, rfl, rfl⟩

/-- C10: the literal string "null" is the internal no-address marker:
an invocation with no address argument and an invocation whose address
argument is "null" both yield the parsed address "null", and address
resolution replaces "null" by the interactively prompted line (so a
user-supplied address "null" is never used as the target). -/
theorem c10_null_address_marker (prompted : String) :
    check_args ["lildbsh"] = CheckArgsResult.address "null" ∧
    check_args ["lildbsh", "--address", "null"] = CheckArgsResult.address "null" ∧
    resolve_address "null" prompted = (prompted, true) :=
  ⟨by decide, by decide, rfl⟩

/-- C3 counterexample: with every connection attempt failing, the retry
loop makes its 3 attempts with no sleep event between them and terminates
the process with exit code 0, not a non-zero status. -/
theorem c3_counterexample :
    connect_to_db_retry [false, false, false] =
      ([RetryEvent.attempt 1, RetryEvent.attempt 2, RetryEvent.attempt 3],
        some (RetryOutcome.exitProcess 0)) ∧
    (connect_to_db_retry [false, false, false]).1.countP isSleepEvent = 0 := by
  decide

/-- C3 amended: for every configuration in which every transport
connection attempt fails, exactly 3 attempts are made with no wait
between consecutive attempts, and after the 3rd failure the process
terminates with exit status 0. -/
theorem c3_retries_exhausted_exit_zero (rest : List Bool) :
    connect_to_db_retry (false :: false :: false :: rest) =
      ([RetryEvent.attempt 1, RetryEvent.attempt 2, RetryEvent.attempt 3],
        some (RetryOutcome.exitProcess 0)) :=
  rfl

/-- C6 counterexample: on a handshake response with success = false and
message "bad session", the process exits with status 1 without entering
the interactive loop, but the printed output is the fixed text "Failed to
connect to" — the message "bad session" is not among the printed
strings. -/
theorem c6_counterexample :
    connect_handshake { success := false, message := "bad session" } =
      HandshakeStep.exitProcess 1 ["Failed to connect to\n\r"] ∧
    "bad session" ∉ ["Failed to connect to\n\r"] := by
  decide

/-- C6 amended: for every connect handshake response with success = false,
the process exits with status 1 (non-zero) without entering the
interactive loop, printing only the fixed text "Failed to connect to"
rather than the response message. -/
theorem c6_rejection_exits_nonzero (m : String) :
    connect_handshake { success := false, message := m } =
      HandshakeStep.exitProcess 1 ["Failed to connect to\n\r"] :=
  rfl

/-- C7 counterexample: no reading of the built endpoint configuration as
"encrypted" can satisfy the claimed equivalence, because supplying the
cert option leaves the parsed address and the built endpoint completely
unchanged: two invocations that the claim requires to differ in
encryption produce the identical endpoint. -/
theorem c7_counterexample : ¬ ∃ encrypted : Endpoint → Bool, encryptionClaim encrypted := by
  rintro ⟨f, hf⟩
  have h1 := hf ["lildbsh", "--address", "grpc://h:1", "--cert", "/ca.pem"] "grpc://h:1"
    (by decide)
  have h2 := hf ["lildbsh", "--address", "grpc://h:1"] "grpc://h:1" (by decide)
  rw [h2] at h1
  exact absurd h1 (by decide)

/-- C7 amended: the program accepts no --cert or -c option (such flags are
ignored by argument parsing, leaving the parsed result unchanged), and
the transport endpoint built for any address carries no TLS settings, so
the connection is never explicitly configured as encrypted. -/
theorem c7_no_cert_no_tls (address : String) :
    (channelEndpoint address).tls = none ∧
    check_args ["lildbsh", "--address", "grpc://h:1", "--cert", "/ca.pem"] =
      check_args ["lildbsh", "--address", "grpc://h:1"] :=
  ⟨rfl, by decide⟩

/-- C1 counterexample: a session in which the user submits the commands
"a" and "b" and then the exit sentinel (disconnecting cleanly) opens two
run_command streams, not one: a fresh stream is opened for every
command. -/
theorem c1_counterexample :
    ((handle_shell
        [{ keys := typeKeys "a", disc := DiscOutcome.resp ⟨true, "ok"⟩,
           run := RunOutcome.stream ["o"] false },
         { keys := typeKeys "b", disc := DiscOutcome.resp ⟨true, "ok"⟩,
           run := RunOutcome.stream [] false },
         { keys := typeKeys "exit", disc := DiscOutcome.resp ⟨true, "bye"⟩,
           run := RunOutcome.stream [] false }]).1.countP isRunCommandCall = 2) ∧
    ((handle_shell
        [{ keys := typeKeys "a", disc := DiscOutcome.resp ⟨true, "ok"⟩,
           run := RunOutcome.stream ["o"] false },
         { keys := typeKeys "b", disc := DiscOutcome.resp ⟨true, "ok"⟩,
           run := RunOutcome.stream [] false },
         { keys := typeKeys "exit", disc := DiscOutcome.resp ⟨true, "bye"⟩,
           run := RunOutcome.stream [] false }]).2 = ShellResult.brokeClean) := by
  decide

/-- C1 amended: the bridge opens a fresh run_command stream per command
rather than one persistent stream per session: every run_command stream
opened during any session carries exactly one Command. -/
theorem c1_each_stream_single_command (scripts : List IterScript) (history : List String) :
    ((handle_shell_go scripts history).1.all singleCommandStream) = true := by
  induction scripts generalizing history with
  | nil => rfl
  | cons s rest ih =>
    simp only [handle_shell_go]
    cases hr : read_input history s.keys with
    | none => rfl
    | some v =>
      obtain ⟨command, interrupted⟩ := v
      cases hFlag : (interrupted || (command == "exit")) with
      | true =>
        cases s.disc with
        | rpcErr => simp [hFlag, List.all_append, singleCommandStream]
        | resp r =>
          cases hs : r.success with
          | true => simp [hFlag, hs, List.all_append, singleCommandStream]
          | false =>
            cases hrun : s.run with
            | refused =>
              simp [hFlag, hs, hrun, runPhase, List.all_append, List.all_cons,
                singleCommandStream, ih]
            | stream outs midErr =>
              cases midErr with
              | true =>
                simp [hFlag, hs, hrun, runPhase, List.all_append, List.all_cons,
                  singleCommandStream, all_map_output_single]
              | false =>
                simp [hFlag, hs, hrun, runPhase, List.all_append, List.all_cons,
                  singleCommandStream, all_map_output_single, ih]
      | false =>
        cases hrun : s.run with
        | refused =>
          simp [hFlag, hrun, runPhase, List.all_append, List.all_cons, singleCommandStream, ih]
        | stream outs midErr =>
          cases midErr with
          | true =>
            simp [hFlag, hrun, runPhase, List.all_append, List.all_cons, singleCommandStream,
              all_map_output_single]
          | false =>
            simp [hFlag, hrun, runPhase, List.all_append, List.all_cons, singleCommandStream,
              all_map_output_single, ih]

/-- C2 counterexample: a session that reached the interactive loop and
whose first command suffers a mid-stream failure aborts the loop through
error propagation with the disconnect RPC invoked zero times, not exactly
once. -/
theorem c2_counterexample :
    handle_shell [{ keys := typeKeys "ls", disc := DiscOutcome.resp ⟨true, "ok"⟩,
                    run := RunOutcome.stream [] true }] =
      ([ShellEvent.lineRead "ls" false, ShellEvent.enqueue ⟨"ls"⟩,
        ShellEvent.runCommandCall [⟨"ls"⟩]], ShellResult.errored) ∧
    ((handle_shell [{ keys := typeKeys "ls", disc := DiscOutcome.resp ⟨true, "ok"⟩,
                      run := RunOutcome.stream [] true }]).1.countP isDisconnectCall = 0) := by
  decide

/-- C2 amended: the disconnect RPC is invoked exactly once per completed
exit request (a line whose exit flag is set: the exit sentinel or a
Ctrl-C interrupt), not once per session: a session aborted by a
duplex-stream failure makes no disconnect call, and a disconnect answered
with success = false leads to continuing the loop, where a later exit
request invokes disconnect again. -/
theorem c2_disconnect_per_exit_request (scripts : List IterScript) (history : List String) :
    (handle_shell_go scripts history).1.countP isDisconnectCall =
      (handle_shell_go scripts history).1.countP isExitLineRead := by
  induction scripts generalizing history with
  | nil => rfl
  | cons s rest ih =>
    simp only [handle_shell_go]
    cases hr : read_input history s.keys with
    | none => rfl
    | some v =>
      obtain ⟨command, interrupted⟩ := v
      cases hFlag : (interrupted || (command == "exit")) with
      | true =>
        cases s.disc with
        | rpcErr =>
          simp [hFlag, List.countP_append, List.countP_cons, isDisconnectCall, isExitLineRead]
        | resp r =>
          cases hs : r.success with
          | true =>
            simp [hFlag, hs, List.countP_append, List.countP_cons, isDisconnectCall,
              isExitLineRead]
          | false =>
            cases hrun : s.run with
            | refused =>
              simp [hFlag, hs, hrun, runPhase, List.countP_append, List.countP_cons,
                isDisconnectCall, isExitLineRead, ih]
            | stream outs midErr =>
              cases midErr with
              | true =>
                simp [hFlag, hs, hrun, runPhase, List.countP_append, List.countP_cons,
                  isDisconnectCall, isExitLineRead, countP_comp_output_disc,
                  countP_comp_output_exitLine]
              | false =>
                simp [hFlag, hs, hrun, runPhase, List.countP_append, List.countP_cons,
                  isDisconnectCall, isExitLineRead, countP_comp_output_disc,
                  countP_comp_output_exitLine, ih]
      | false =>
        cases hrun : s.run with
        | refused =>
          simp [hFlag, hrun, runPhase, List.countP_append, List.countP_cons, isDisconnectCall,
            isExitLineRead, ih]
        | stream outs midErr =>
          cases midErr with
          | true =>
            simp [hFlag, hrun, runPhase, List.countP_append, List.countP_cons, isDisconnectCall,
              isExitLineRead, countP_comp_output_disc, countP_comp_output_exitLine]
          | false =>
            simp [hFlag, hrun, runPhase, List.countP_append, List.countP_cons, isDisconnectCall,
              isExitLineRead, countP_comp_output_disc, countP_comp_output_exitLine, ih]

/-- C4 counterexample: the line " exit" (a space before the sentinel) is
equal to "exit" after trimming surrounding whitespace, yet it is
transmitted to the server on a run_command stream, because the code
compares the raw line against "exit" without trimming. -/
theorem c4_counterexample :
    specTrim " exit" = "exit" ∧
    ShellEvent.runCommandCall [{ command := " exit" }] ∈
      (handle_shell [{ keys := typeKeys " exit", disc := DiscOutcome.resp ⟨true, "ok"⟩,
                       run := RunOutcome.stream [] false }]).1 := by
  decide

/-- C4 amended: only a line exactly equal to "exit" (no trimming) is
treated as the sentinel, and it escapes transmission only when the
disconnect RPC answers with success: in every session in which no
disconnect response carries success = false, no run_command stream ever
transmits a Command whose text is exactly "exit". -/
theorem c4_exact_exit_not_transmitted (scripts : List IterScript) (history : List String)
    (h : scripts.all discNotRefused = true) :
    ((handle_shell_go scripts history).1.all noExitTransmitted) = true := by
  induction scripts generalizing history with
  | nil => rfl
  | cons s rest ih =>
    rw [List.all_cons, Bool.and_eq_true] at h
    obtain ⟨hdisc, hrest⟩ := h
    simp only [handle_shell_go]
    cases hr : read_input history s.keys with
    | none => rfl
    | some v =>
      obtain ⟨command, interrupted⟩ := v
      cases hFlag : (interrupted || (command == "exit")) with
      | true =>
        cases hd : s.disc with
        | rpcErr => simp [hFlag, hd, List.all_append, noExitTransmitted]
        | resp r =>
          cases hs : r.success with
          | true => simp [hFlag, hd, hs, List.all_append, noExitTransmitted]
          | false =>
            simp only [discNotRefused, hd, hs] at hdisc
            exact absurd hdisc (by decide)
      | false =>
        have hcmd : (command == "exit") = false := by
          cases hbe : (command == "exit") with
          | false => rfl
          | true => rw [hbe, Bool.or_true] at hFlag; exact absurd hFlag (by decide)
        have hInt : interrupted = false := by
          cases hi : interrupted with
          | false => rfl
          | true => rw [hi, Bool.true_or] at hFlag; exact absurd hFlag (by decide)
        cases hrun : s.run with
        | refused =>
          simp [hInt, hcmd, hrun, runPhase, List.all_append, List.all_cons, noExitTransmitted,
            ih _ hrest]
        | stream outs midErr =>
          cases midErr with
          | true =>
            simp [hInt, hcmd, hrun, runPhase, List.all_append, List.all_cons, noExitTransmitted,
              all_map_output_noExit]
          | false =>
            simp [hInt, hcmd, hrun, runPhase, List.all_append, List.all_cons, noExitTransmitted,
              all_map_output_noExit, ih _ hrest]

/-- C4 witness: a concrete session (type "exit", disconnect succeeds)
satisfying the hypothesis of c4_exact_exit_not_transmitted, at which the
conclusion evaluates. -/
theorem c4_witness :
    (([{ keys := typeKeys "exit", disc := DiscOutcome.resp ⟨true, "bye"⟩,
         run := RunOutcome.stream [] false }] : List IterScript).all discNotRefused = true) ∧
    ((handle_shell_go
        [{ keys := typeKeys "exit", disc := DiscOutcome.resp ⟨true, "bye"⟩,
           run := RunOutcome.stream [] false }] []).1.all noExitTransmitted = true) :=
  ⟨by decide,
    c4_exact_exit_not_transmitted
      [{ keys := typeKeys "exit", disc := DiscOutcome.resp ⟨true, "bye"⟩,
         run := RunOutcome.stream [] false }] [] (by decide)⟩

/-- C5 counterexample: the line " " (one space) is empty after trimming
surrounding whitespace, yet it is enqueued as a Command and transmitted,
because the Enter handler only rejects a buffer that is empty as a raw
string. -/
theorem c5_counterexample :
    specTrim " " = "" ∧
    ShellEvent.enqueue { command := " " } ∈
      (handle_shell [{ keys := typeKeys " ", disc := DiscOutcome.resp ⟨true, "ok"⟩,
                       run := RunOutcome.stream [] false }]).1 ∧
    ShellEvent.runCommandCall [{ command := " " }] ∈
      (handle_shell [{ keys := typeKeys " ", disc := DiscOutcome.resp ⟨true, "ok"⟩,
                       run := RunOutcome.stream [] false }]).1 := by
  decide

/-- Helper for C5: through every state of the read_input loop, a line
completed by Enter (interrupted flag false) is non-empty as a raw
string: the Enter arm only returns when the buffer is non-empty, and the
Ctrl-C arm returns with the flag set. -/
theorem readInputGo_enter_nonempty (history : List String) :
    ∀ (keys : List KeyEvent) (input : String) (chLen : Nat) (line : String),
      readInputGo history keys input chLen = some (line, false) → line ≠ "" := by
  intro keys
  induction keys with
  | nil =>
    intro input chLen line h
    simp [readInputGo] at h
  | cons e rest ih =>
    intro input chLen line h
    simp only [readInputGo] at h
    split at h <;> try split at h <;> try split at h <;> try split at h
    all_goals
      first
        | exact ih _ _ _ h
        | (rename_i hcond
           simp only [Option.some.injEq, Prod.mk.injEq] at h
           obtain ⟨h1, -⟩ := h
           subst h1
           exact hcond)
        | simp at h

/-- C5 amended: no line that is empty as a raw string is ever completed
by Enter, so every Command produced by a completed (non-interrupted) line
is non-empty as a raw string; emptiness after trimming is not checked, so
whitespace-only Commands are enqueued. -/
theorem c5_enter_completion_nonempty (history : List String) (keys : List KeyEvent)
    (line : String) (h : read_input history keys = some (line, false)) : line ≠ "" :=
  readInputGo_enter_nonempty history keys "" history.length line h

/-- C5 witness: the completed line "a" at a concrete key-event script,
satisfying the hypothesis of c5_enter_completion_nonempty. -/
theorem c5_witness : ("a" : String) ≠ "" :=
  c5_enter_completion_nonempty [] (typeKeys "a") "a" (by decide)

/-- C8 counterexample: with the first command answered by a burst of
three inbound messages, the unique execution trace accepts the second
typed command only after the whole burst is printed: the loop drains the
entire inbound stream of a command before reading the next line, so a
long burst delays acceptance of the next command. -/
theorem c8_counterexample :
    handle_shell [{ keys := typeKeys "a", disc := DiscOutcome.resp ⟨true, "ok"⟩,
                    run := RunOutcome.stream ["o1", "o2", "o3"] false },
                  { keys := typeKeys "b", disc := DiscOutcome.resp ⟨true, "ok"⟩,
                    run := RunOutcome.stream [] false }] =
      ([ShellEvent.lineRead "a" false, ShellEvent.enqueue { command := "a" },
        ShellEvent.runCommandCall [{ command := "a" }],
        ShellEvent.output "o1", ShellEvent.output "o2", ShellEvent.output "o3",
        ShellEvent.lineRead "b" false, ShellEvent.enqueue { command := "b" },
        ShellEvent.runCommandCall [{ command := "b" }]],
       ShellResult.outOfScript) := by
  decide

/-- C8 amended: the loop is sequential, not independently progressing:
for every inbound burst and every continuation of the session, the trace
of a session beginning with command "a" consists of the reading and
enqueueing of "a", its stream opening, then the entire burst, and only
then every event of the rest of the session, including the acceptance of
the next typed command. -/
theorem c8_burst_drained_before_next_read (outs : List String) (rest : List IterScript) :
    handle_shell ({ keys := typeKeys "a", disc := DiscOutcome.resp ⟨true, "ok"⟩,
                    run := RunOutcome.stream outs false } :: rest) =
      ([ShellEvent.lineRead "a" false, ShellEvent.enqueue { command := "a" },
        ShellEvent.runCommandCall [{ command := "a" }]] ++ outs.map ShellEvent.output ++
          (handle_shell_go rest ["a"]).1,
        (handle_shell_go rest ["a"]).2) :=
  rfl

end LilDBsh
